import Mathlib

set_option maxHeartbeats 1000000

/-!
Verification of the afwm interaction core: the event loop of src/wm.rs
together with the Screen geometry cache of src/screen.rs, shallowly embedded.
The workspace container, transport and keybind table are external
collaborators of the core (their sources are not part of the core); where a
definition models one of them it is marked as modelled from the spec.
Transport requests issued while handling one event are recorded as a trace of
XCall values; the two process-aborting panics of the loop are embedded as the
error side of an Except.
-/

namespace Afwm

/-- Mouse interaction mode of the window manager (wm.rs, enum MouseMode). -/
inductive MouseMode
| ground
| resize
| move
deriving DecidableEq, Repr

/-- Mouse buttons delivered with ButtonPress events (wm.rs match on MouseButton;
the vocabulary is LeftClick and RightClick). -/
inductive MouseButton
| leftClick
| rightClick
deriving DecidableEq, Repr

/-- Modelled from the spec: event.rs is not under src/. A key event carries a
modifier mask and a key symbol, compared with keybind table entries. -/
structure KeyEvent where
  mask : Nat
  key : Nat
deriving DecidableEq, Repr

/-- The inbound event vocabulary dispatched by WM::run (wm.rs match arms).
Window identifiers are opaque handles, embedded as Nat. -/
inductive Event
| mapRequest (win : Nat)
| unmapNotify (win : Nat)
| destroyNotify (win : Nat)
| enterNotify (win : Nat)
| motionNotify
| keyPress (ev : KeyEvent) (win : Nat)
| buttonPress (but : MouseButton) (win : Nat)
| buttonRelease (but : MouseButton)
deriving DecidableEq, Repr

/-- Transport and container requests issued by the loop while handling one
event, recorded as an abstract trace. -/
inductive XCall
| grabPointer
| ungrabPointer
| setInputFocus (win : Nat)
| doMoveCall (win : Nat) (dx : Int) (dy : Int)
| doResizeCall (win : Nat) (dx : Int) (dy : Int)
| focusCall (win : Nat)
| placeCall (win : Nat)
| delCall (win : Nat)
deriving DecidableEq, Repr

/-- The two ways event handling aborts the process: an unwrap of a missing
focused window, and the MouseMode::Ground arm of MotionNotify (wm.rs line 146). -/
inductive Fatal
| unwrapFailed
| groundMotion
deriving DecidableEq, Repr

/-- Modelled from the spec: workspace.rs is not under src/. One workspace owns
a set of managed windows and at most one focused window; the container
invariant keeps focused defined whenever the workspace is non-empty. -/
structure Workspace where
  windows : List Nat
  focused : Option Nat
deriving DecidableEq, Repr

/-- Modelled from the spec: window_add inserts the window into the workspace
and focuses it (placement is issued via the container, recorded in the trace
by the caller). -/
def Workspace.window_add (ws : Workspace) (win : Nat) : Workspace :=
  { ws with windows := ws.windows ++ [win], focused := some win }

/-- Modelled from the spec: window_del removes exactly the entry at the given
index; the spec fixes only the removal, so focus falls to the first remaining
window when the removed window was the focused one. -/
def Workspace.window_del (ws : Workspace) (idx : Nat) (win : Nat) : Workspace :=
  let rest := ws.windows.eraseIdx idx
  { windows := rest, focused := if ws.focused = some win then rest.head? else ws.focused }

/-- Modelled from the spec: window_focus designates the window as the focused
one of the workspace. -/
def Workspace.window_focus (ws : Workspace) (win : Nat) : Workspace :=
  { ws with focused := some win }

/-- Modelled from the spec: desktop.rs is not under src/. The container owns
the workspaces, with one current workspace designated by index. -/
structure Desktop where
  workspaces : List Workspace
  cur : Nat
deriving DecidableEq, Repr

/-- The active workspace (Desktop::current of the container contract). -/
def Desktop.current (d : Desktop) : Workspace :=
  d.workspaces.getD d.cur ⟨[], none⟩

/-- Helper scan for Desktop.contains_mut: first workspace holding the window,
together with the index of the window inside it. -/
def containsFrom (win : Nat) : List Workspace → Nat → Option (Nat × Nat)
| [], _ => none
| ws :: rest, i =>
  match ws.windows.findIdx? (fun w => w = win) with
  | some j => some (i, j)
  | none => containsFrom win rest (i + 1)

/-- Modelled from the spec: contains_mut locates a window across all
workspaces, returning the workspace index and the window index inside it. -/
def Desktop.contains_mut (d : Desktop) (win : Nat) : Option (Nat × Nat) :=
  containsFrom win d.workspaces 0

/-- window_focus applied to the current workspace of the container
(current_mut().window_focus of wm.rs). -/
def Desktop.focus_current (d : Desktop) (win : Nat) : Desktop :=
  { d with workspaces := d.workspaces.set d.cur ((d.current).window_focus win) }

/-- The screen geometry cache (src/screen.rs, struct Screen). -/
structure Screen where
  x : Int
  y : Int
  width : Int
  height : Int
  idx : Int
  root_id : Nat
deriving DecidableEq, Repr

/-- Screen::new (screen.rs): geometry zero until the first fetch. -/
def Screen.new (screen_idx : Int) (root_id : Nat) : Screen :=
  { x := 0, y := 0, width := 0, height := 0, idx := screen_idx, root_id := root_id }

/-- Screen::id of the XWindow impl (screen.rs): the root window identifier. -/
def Screen.id (s : Screen) : Nat :=
  s.root_id

/-- Screen::set of the XWindow impl (screen.rs): overwrite the four geometry
fields. -/
def Screen.set (s : Screen) (x : Int) (y : Int) (width : Int) (height : Int) : Screen :=
  { s with x := x, y := y, width := width, height := height }

/-- The mutable state of WM (wm.rs, struct WM), with the server-side pointer
grab mirrored in the grabbed field: grab_pointer sets it, ungrab_pointer
clears it. -/
structure WMState where
  desktop : Desktop
  screen : Screen
  mouse_mode : MouseMode
  last_mouse_x : Int
  last_mouse_y : Int
  running : Bool
  grabbed : Bool
deriving DecidableEq, Repr

/-- One entry of the static keybind table (config, external): modifier mask,
key symbol and the bound action; the action receives the whole WM state and
may issue transport calls. -/
structure Keybind where
  mask : Nat
  key : Nat
  keyfn : WMState → WMState × List XCall

/-- The KeyPress dispatch loop of wm.rs: scan the table in declared order,
and at the first entry whose mask and key match, refocus the event window if
it is not the focused one, run the bound action, and stop. -/
def scanKeys (kev : KeyEvent) (win : Nat) : List Keybind → WMState → WMState × List XCall
| [], s => (s, [])
| kb :: rest, s =>
  if kb.mask = kev.mask ∧ kb.key = kev.key then
    let p1 : WMState × List XCall :=
      if (s.desktop.current).focused = some win then (s, [])
      else ({ s with desktop := s.desktop.focus_current win }, [XCall.focusCall win])
    let p2 := kb.keyfn p1.1
    (p2.1, p1.2 ++ p2.2)
  else scanKeys kev win rest s

/-- One iteration of the event loop of WM::run (wm.rs lines 85 to 207): the
dispatch of a single event. The ptr argument is the position the transport
would answer to a query_pointer call during this event. The ok result is the
new state with the trace of issued calls; the error result is a process
abort. -/
def handleEvent (keybinds : List Keybind) (ptr : Int × Int) (ev : Event) (s : WMState) :
    Except Fatal (WMState × List XCall) :=
  match ev with
  | Event.mapRequest win =>
    match s.desktop.contains_mut win with
    | some (i, _) =>
      if i = s.desktop.cur then
        Except.ok ({ s with desktop := s.desktop.focus_current win }, [XCall.focusCall win])
      else
        Except.ok (s, [])
    | none =>
      Except.ok ({ s with desktop := { s.desktop with
          workspaces := s.desktop.workspaces.set s.desktop.cur ((s.desktop.current).window_add win) } },
        [XCall.placeCall win])
  | Event.unmapNotify win =>
    match s.desktop.contains_mut win with
    | some (i, idx) =>
      Except.ok ({ s with desktop := { s.desktop with
          workspaces := s.desktop.workspaces.set i
            ((s.desktop.workspaces.getD i ⟨[], none⟩).window_del idx win) } },
        [XCall.delCall win])
    | none => Except.ok (s, [])
  | Event.destroyNotify win =>
    match s.desktop.contains_mut win with
    | some (i, idx) =>
      Except.ok ({ s with desktop := { s.desktop with
          workspaces := s.desktop.workspaces.set i
            ((s.desktop.workspaces.getD i ⟨[], none⟩).window_del idx win) } },
        [XCall.delCall win])
    | none => Except.ok (s, [])
  | Event.enterNotify win =>
    Except.ok (s, [XCall.setInputFocus win])
  | Event.motionNotify =>
    if (s.desktop.current).windows.isEmpty then Except.ok (s, [])
    else
      let dx := ptr.1 - s.last_mouse_x
      let dy := ptr.2 - s.last_mouse_y
      let s1 := { s with last_mouse_x := ptr.1, last_mouse_y := ptr.2 }
      match s.mouse_mode with
      | MouseMode.move =>
        match (s.desktop.current).focused with
        | some f => Except.ok (s1, [XCall.doMoveCall f dx dy])
        | none => Except.error Fatal.unwrapFailed
      | MouseMode.resize =>
        match (s.desktop.current).focused with
        | some f => Except.ok (s1, [XCall.doResizeCall f dx dy])
        | none => Except.error Fatal.unwrapFailed
      | MouseMode.ground => Except.error Fatal.groundMotion
  | Event.keyPress kev win =>
    Except.ok (scanKeys kev win keybinds s)
  | Event.buttonPress but win =>
    if (s.desktop.current).windows.isEmpty then Except.ok (s, [])
    else
      let s1 := { s with grabbed := true, last_mouse_x := ptr.1, last_mouse_y := ptr.2 }
      match (s.desktop.current).focused with
      | none => Except.error Fatal.unwrapFailed
      | some f =>
        let d2 := if win ≠ f then s1.desktop.focus_current win else s1.desktop
        let t2 : List XCall := if win ≠ f then [XCall.focusCall win] else []
        let mode := match but with
          | MouseButton.leftClick => MouseMode.move
          | MouseButton.rightClick => MouseMode.resize
        Except.ok ({ s1 with desktop := d2, mouse_mode := mode }, XCall.grabPointer :: t2)
  | Event.buttonRelease _ =>
    Except.ok ({ s with grabbed := false, mouse_mode := MouseMode.ground }, [XCall.ungrabPointer])

/-- The event loop: fetch and fully process one event at a time, threading the
state; an abort ends the run. Each list element pairs the pointer position the
transport would report during that event with the event itself. -/
def runEvents (keybinds : List Keybind) : List ((Int × Int) × Event) → WMState → Except Fatal WMState
| [], s => Except.ok s
| (ptr, ev) :: rest, s =>
  match handleEvent keybinds ptr ev s with
  | Except.ok (s1, _) => runEvents keybinds rest s1
  | Except.error e => Except.error e

/-- The state WM::register leaves the loop in (wm.rs lines 66 to 74): Ground
mode, last pointer (0, 0), running, and no pointer grab held (registration
grabs buttons and keys but never the pointer). -/
def initState (scr : Screen) (d : Desktop) : WMState :=
  { desktop := d, screen := scr, mouse_mode := MouseMode.ground,
    last_mouse_x := 0, last_mouse_y := 0, running := true, grabbed := false }

/-- A keybind action that leaves the pointer grab and the mouse mode alone
(the actions of the shipped configuration spawn programs, move windows
between workspaces or stop the loop; none touches the grab or the mode). -/
def PreservesGrabMode (kb : Keybind) : Prop :=
  ∀ s : WMState, (kb.keyfn s).1.grabbed = s.grabbed ∧ (kb.keyfn s).1.mouse_mode = s.mouse_mode

/-! ### C8: Screen set and id -/

/-- C8: For every Screen value and all arguments, Screen.set overwrites
exactly the four geometry fields with the given values unconditionally and
leaves the root window identifier and the screen index unchanged, and
Screen.id always returns the root window identifier the Screen was
constructed with. -/
theorem screen_set_overwrites_id_stable (s : Screen) (x y w h : Int) (i : Int) (r : Nat) :
    Screen.set s x y w h =
      { x := x, y := y, width := w, height := h, idx := s.idx, root_id := s.root_id } ∧
    Screen.id (Screen.set s x y w h) = Screen.id s ∧
    Screen.id (Screen.new i r) = r ∧
    Screen.id s = s.root_id :=
  ⟨rfl, rfl, rfl, rfl⟩

/-! ### C3: ButtonRelease -/

/-- C3: For every ButtonRelease event, in every state and for every button,
handling releases the pointer grab and sets MouseMode to Ground, leaving the
last pointer position, the desktop, the screen and the running flag
unchanged; the only transport call issued is the ungrab. -/
theorem buttonRelease_ungrabs_grounds (kb : List Keybind) (ptr : Int × Int)
    (but : MouseButton) (s : WMState) :
    handleEvent kb ptr (Event.buttonRelease but) s =
      Except.ok ({ s with grabbed := false, mouse_mode := MouseMode.ground },
        [XCall.ungrabPointer]) :=
  rfl

/-! ### C9: UnmapNotify and DestroyNotify agree -/

/-- C9: The UnmapNotify and DestroyNotify handlers are extensionally equal:
for every window, pointer answer, keybind table and state, they produce the
same result (state change and transport calls alike). -/
theorem unmap_destroy_extensionally_equal (kb : List Keybind) (ptr : Int × Int)
    (win : Nat) (s : WMState) :
    handleEvent kb ptr (Event.unmapNotify win) s =
      handleEvent kb ptr (Event.destroyNotify win) s :=
  rfl

/-! ### C2: MotionNotify in Ground -/

/-- C2 counterexample: a MotionNotify received while MouseMode is Ground does
NOT abort when the current workspace is empty: the empty-workspace check of
wm.rs line 119 runs first and the event is silently ignored, state unchanged. -/
theorem motion_ground_empty_is_ignored :
    (initState (Screen.new 0 1) ⟨[⟨[], none⟩], 0⟩).mouse_mode = MouseMode.ground ∧
    handleEvent [] (5, 5) Event.motionNotify (initState (Screen.new 0 1) ⟨[⟨[], none⟩], 0⟩) =
      Except.ok (initState (Screen.new 0 1) ⟨[⟨[], none⟩], 0⟩, []) :=
  ⟨rfl, rfl⟩

/-- C2 amended: for every MotionNotify event received while MouseMode is
Ground and the current workspace is non-empty, handling aborts the process
(the panic of wm.rs line 146), a fatal invariant violation. -/
theorem motion_ground_nonempty_aborts (kb : List Keybind) (ptr : Int × Int) (s : WMState)
    (hm : s.mouse_mode = MouseMode.ground)
    (hne : (s.desktop.current).windows.isEmpty = false) :
    handleEvent kb ptr Event.motionNotify s = Except.error Fatal.groundMotion := by
  simp only [handleEvent, hne, hm, Bool.false_eq_true, if_false]

/-- Witness for the amended C2 at a concrete Ground state with one window. -/
theorem motion_ground_nonempty_aborts_at :
    handleEvent [] (5, 5) Event.motionNotify (initState (Screen.new 0 1) ⟨[⟨[7], some 7⟩], 0⟩) =
      Except.error Fatal.groundMotion :=
  motion_ground_nonempty_aborts [] (5, 5) (initState (Screen.new 0 1) ⟨[⟨[7], some 7⟩], 0⟩)
    rfl rfl

/-! ### C4: ButtonPress -/

/-- C4: For every ButtonPress(button, win) event: if the current workspace is
empty the event is ignored and the state is unchanged; otherwise the pointer
is grabbed, the last pointer position is set to the queried pointer position,
win is focused exactly when it differs from the currently focused window, and
MouseMode becomes Move for the left button and Resize for the right button. -/
theorem buttonPress_grabs_and_sets_mode (kb : List Keybind) (ptr : Int × Int)
    (but : MouseButton) (win : Nat) (s : WMState) :
    ((s.desktop.current).windows.isEmpty = true →
      handleEvent kb ptr (Event.buttonPress but win) s = Except.ok (s, [])) ∧
    (∀ f, (s.desktop.current).windows.isEmpty = false →
      (s.desktop.current).focused = some f →
      handleEvent kb ptr (Event.buttonPress but win) s =
        Except.ok ({ s with
            grabbed := true,
            last_mouse_x := ptr.1,
            last_mouse_y := ptr.2,
            desktop := if win ≠ f then s.desktop.focus_current win else s.desktop,
            mouse_mode := match but with
              | MouseButton.leftClick => MouseMode.move
              | MouseButton.rightClick => MouseMode.resize },
          XCall.grabPointer :: (if win ≠ f then [XCall.focusCall win] else []))) := by
  constructor
  · intro he
    simp only [handleEvent, he, if_true]
  · intro f hne hf
    simp only [handleEvent, hne, Bool.false_eq_true, if_false, hf]

/-- Witness for C4 at a concrete state: one window 4 focused, left press on
window 9 grabs, snapshots the pointer at (2, 3), refocuses 9 and enters Move. -/
theorem buttonPress_grabs_and_sets_mode_at :
    handleEvent [] (2, 3) (Event.buttonPress MouseButton.leftClick 9)
        (initState (Screen.new 0 1) ⟨[⟨[4], some 4⟩], 0⟩) =
      Except.ok ({ initState (Screen.new 0 1) ⟨[⟨[4], some 4⟩], 0⟩ with
          grabbed := true,
          last_mouse_x := 2,
          last_mouse_y := 3,
          desktop := if 9 ≠ 4 then
              (initState (Screen.new 0 1) ⟨[⟨[4], some 4⟩], 0⟩).desktop.focus_current 9
            else (initState (Screen.new 0 1) ⟨[⟨[4], some 4⟩], 0⟩).desktop,
          mouse_mode := MouseMode.move },
        XCall.grabPointer :: (if 9 ≠ 4 then [XCall.focusCall 9] else [])) :=
  (buttonPress_grabs_and_sets_mode [] (2, 3) MouseButton.leftClick 9
    (initState (Screen.new 0 1) ⟨[⟨[4], some 4⟩], 0⟩)).2 4 rfl rfl

/-! ### C5: MotionNotify in Move and Resize -/

/-- C5: For every MotionNotify with a non-empty current workspace and
MouseMode Move or Resize, the handler computes delta = queried position minus
last position, stores the queried position as the new last position, and
applies exactly that delta to the focused window via do_move respectively
do_resize; in particular, in Move mode a motion at (10, 10) followed by one
at (13, 15) applies do_move with delta (3, 5) and leaves last = (13, 15). -/
theorem motion_applies_delta (kb : List Keybind) (px py : Int) (s : WMState) (f : Nat)
    (hne : (s.desktop.current).windows.isEmpty = false)
    (hf : (s.desktop.current).focused = some f) :
    (s.mouse_mode = MouseMode.move →
      handleEvent kb (px, py) Event.motionNotify s =
        Except.ok ({ s with last_mouse_x := px, last_mouse_y := py },
          [XCall.doMoveCall f (px - s.last_mouse_x) (py - s.last_mouse_y)])) ∧
    (s.mouse_mode = MouseMode.resize →
      handleEvent kb (px, py) Event.motionNotify s =
        Except.ok ({ s with last_mouse_x := px, last_mouse_y := py },
          [XCall.doResizeCall f (px - s.last_mouse_x) (py - s.last_mouse_y)])) ∧
    (s.mouse_mode = MouseMode.move →
      handleEvent kb (13, 15) Event.motionNotify
          ({ s with last_mouse_x := 10, last_mouse_y := 10 }) =
        Except.ok ({ s with last_mouse_x := 13, last_mouse_y := 15 },
          [XCall.doMoveCall f 3 5])) := by
  refine ⟨?_, ?_, ?_⟩
  · intro hm
    simp only [handleEvent, hne, Bool.false_eq_true, if_false, hm, hf]
  · intro hm
    simp only [handleEvent, hne, Bool.false_eq_true, if_false, hm, hf]
  · intro hm
    simp only [handleEvent, hne, Bool.false_eq_true, if_false, hm, hf]
    norm_num

/-- Witness for C5: in Move mode with last = (10, 10) and one focused window
7, a motion answered at (13, 15) issues do_move with delta (3, 5) and updates
last to (13, 15). -/
theorem motion_applies_delta_at :
    handleEvent [] (13, 15) Event.motionNotify
        ({ initState (Screen.new 0 1) ⟨[⟨[7], some 7⟩], 0⟩ with
            mouse_mode := MouseMode.move, last_mouse_x := 10, last_mouse_y := 10 }) =
      Except.ok ({ initState (Screen.new 0 1) ⟨[⟨[7], some 7⟩], 0⟩ with
          mouse_mode := MouseMode.move, last_mouse_x := 13, last_mouse_y := 15 },
        [XCall.doMoveCall 7 3 5]) :=
  (motion_applies_delta [] 13 15
    ({ initState (Screen.new 0 1) ⟨[⟨[7], some 7⟩], 0⟩ with
        mouse_mode := MouseMode.move, last_mouse_x := 10, last_mouse_y := 10 })
    7 rfl rfl).2.2 rfl

/-! ### C6: MapRequest -/

/-- C6: For every MapRequest(win) event: if win is tracked nowhere it is
inserted into the current workspace and placed; if win is tracked in the
active workspace it is refocused with no duplicate insertion (the window list
of the current workspace is unchanged); if win is tracked in an inactive
workspace nothing happens. -/
theorem mapRequest_insert_focus_noop (kb : List Keybind) (ptr : Int × Int)
    (win : Nat) (s : WMState) :
    (s.desktop.contains_mut win = none →
      handleEvent kb ptr (Event.mapRequest win) s =
        Except.ok ({ s with desktop := { s.desktop with
            workspaces := s.desktop.workspaces.set s.desktop.cur
              ((s.desktop.current).window_add win) } },
          [XCall.placeCall win])) ∧
    (∀ i j, s.desktop.contains_mut win = some (i, j) → i = s.desktop.cur →
      handleEvent kb ptr (Event.mapRequest win) s =
        Except.ok ({ s with desktop := s.desktop.focus_current win },
          [XCall.focusCall win]) ∧
      ((s.desktop.focus_current win).current).windows = (s.desktop.current).windows) ∧
    (∀ i j, s.desktop.contains_mut win = some (i, j) → i ≠ s.desktop.cur →
      handleEvent kb ptr (Event.mapRequest win) s = Except.ok (s, [])) := by
  refine ⟨?_, ?_, ?_⟩
  · intro hc
    simp only [handleEvent, hc]
  · intro i j hc hi
    constructor
    · simp only [handleEvent, hc, hi, if_true]
    · show ((Desktop.focus_current s.desktop win).workspaces.getD
          (Desktop.focus_current s.desktop win).cur ⟨[], none⟩).windows = _
      by_cases hcur : s.desktop.cur < s.desktop.workspaces.length
      · simp [Desktop.focus_current, Desktop.current, Workspace.window_focus,
          List.getD, List.getElem?_set, hcur]
      · simp [Desktop.focus_current, Desktop.current, List.set_eq_of_length_le
          (Nat.le_of_not_lt hcur)]
  · intro i j hc hi
    simp only [handleEvent, hc, hi, if_false]

/-- Witness for C6 at a concrete state: desktop with current workspace 0
holding window 4 and inactive workspace 1 holding window 6; mapping the fresh
window 9 inserts it into workspace 0. -/
theorem mapRequest_insert_focus_noop_at :
    handleEvent [] (0, 0) (Event.mapRequest 9)
        (initState (Screen.new 0 1) ⟨[⟨[4], some 4⟩, ⟨[6], some 6⟩], 0⟩) =
      Except.ok ({ initState (Screen.new 0 1) ⟨[⟨[4], some 4⟩, ⟨[6], some 6⟩], 0⟩ with
          desktop := { workspaces := [⟨[4, 9], some 9⟩, ⟨[6], some 6⟩], cur := 0 } },
        [XCall.placeCall 9]) := by
  have h := (mapRequest_insert_focus_noop [] (0, 0) 9
    (initState (Screen.new 0 1) ⟨[⟨[4], some 4⟩, ⟨[6], some 6⟩], 0⟩)).1 rfl
  simpa [Desktop.current, Workspace.window_add] using h

/-! ### C10: the focused-window unwraps never panic -/

/-- C10: Under the container invariant that the focused window is defined
whenever the current workspace is non-empty, neither the ButtonPress handler
nor the MotionNotify handler can abort through the unwrap of the focused
window: both return early on an empty workspace before any focused-window
access. -/
theorem focused_unwrap_safe (kb : List Keybind) (ptr : Int × Int)
    (but : MouseButton) (win : Nat) (s : WMState)
    (hinv : (s.desktop.current).windows.isEmpty = false →
      ((s.desktop.current).focused).isSome = true) :
    handleEvent kb ptr (Event.buttonPress but win) s ≠ Except.error Fatal.unwrapFailed ∧
    handleEvent kb ptr Event.motionNotify s ≠ Except.error Fatal.unwrapFailed := by
  constructor
  · by_cases he : (s.desktop.current).windows.isEmpty
    · simp [handleEvent, he]
    · have hs := hinv (Bool.eq_false_iff.mpr he)
      obtain ⟨f, hf⟩ := Option.isSome_iff_exists.mp hs
      simp only [handleEvent, Bool.eq_false_iff.mpr he, Bool.false_eq_true, if_false, hf]
      intro h
      simp at h
  · by_cases he : (s.desktop.current).windows.isEmpty
    · simp [handleEvent, he]
    · have hs := hinv (Bool.eq_false_iff.mpr he)
      obtain ⟨f, hf⟩ := Option.isSome_iff_exists.mp hs
      cases hm : s.mouse_mode <;>
        simp only [handleEvent, Bool.eq_false_iff.mpr he, Bool.false_eq_true, if_false, hf, hm] <;>
        intro h <;> simp at h

/-- Witness for C10 at a concrete Move-mode state with one focused window. -/
theorem focused_unwrap_safe_at :
    handleEvent [] (1, 1) (Event.buttonPress MouseButton.rightClick 3)
        ({ initState (Screen.new 0 1) ⟨[⟨[3], some 3⟩], 0⟩ with mouse_mode := MouseMode.move }) ≠
      Except.error Fatal.unwrapFailed ∧
    handleEvent [] (1, 1) Event.motionNotify
        ({ initState (Screen.new 0 1) ⟨[⟨[3], some 3⟩], 0⟩ with mouse_mode := MouseMode.move }) ≠
      Except.error Fatal.unwrapFailed :=
  focused_unwrap_safe [] (1, 1) MouseButton.rightClick 3
    ({ initState (Screen.new 0 1) ⟨[⟨[3], some 3⟩], 0⟩ with mouse_mode := MouseMode.move })
    (fun _ => rfl)

/-! ### C7: KeyPress dispatch -/

/-- A scan of entries none of which matches the key event leaves the state
untouched and issues no calls. -/
theorem scanKeys_no_match (kev : KeyEvent) (win : Nat) :
    ∀ (kbs : List Keybind) (s : WMState),
    (∀ k ∈ kbs, ¬(k.mask = kev.mask ∧ k.key = kev.key)) →
    scanKeys kev win kbs s = (s, [])
| [], _, _ => rfl
| kb :: rest, s, h => by
  have hkb := h kb (List.mem_cons_self kb rest)
  rw [scanKeys, if_neg hkb]
  exact scanKeys_no_match kev win rest s (fun k hk => h k (List.mem_cons_of_mem kb hk))

/-- Non-matching entries at the front of the table are skipped by the scan. -/
theorem scanKeys_skip (kev : KeyEvent) (win : Nat) :
    ∀ (pre rest : List Keybind) (s : WMState),
    (∀ k ∈ pre, ¬(k.mask = kev.mask ∧ k.key = kev.key)) →
    scanKeys kev win (pre ++ rest) s = scanKeys kev win rest s
| [], _, _, _ => rfl
| kb :: pre, rest, s, h => by
  have hkb := h kb (List.mem_cons_self kb pre)
  rw [List.cons_append, scanKeys, if_neg hkb]
  exact scanKeys_skip kev win pre rest s (fun k hk => h k (List.mem_cons_of_mem kb hk))

/-- C7: For every KeyPress(ev, win) event, the keybind table is scanned in
declared order and dispatch stops at the first entry whose mask and key equal
those of the event, whatever comes after it; on a match, if win is not the
focused window it is focused before the bound action runs (the action sees
the refocused state and the focus call precedes its calls in the trace); if
no entry matches, no action and no focus change occur. -/
theorem keyPress_first_match (ptr : Int × Int) (kev : KeyEvent) (win : Nat) (s : WMState) :
    (∀ kbs : List Keybind, (∀ k ∈ kbs, ¬(k.mask = kev.mask ∧ k.key = kev.key)) →
      handleEvent kbs ptr (Event.keyPress kev win) s = Except.ok (s, [])) ∧
    (∀ (pre post : List Keybind) (kb : Keybind),
      (∀ k ∈ pre, ¬(k.mask = kev.mask ∧ k.key = kev.key)) →
      kb.mask = kev.mask → kb.key = kev.key →
      handleEvent (pre ++ kb :: post) ptr (Event.keyPress kev win) s =
        Except.ok
          ((kb.keyfn (if (s.desktop.current).focused = some win then s
              else { s with desktop := s.desktop.focus_current win })).1,
            (if (s.desktop.current).focused = some win then ([] : List XCall)
              else [XCall.focusCall win]) ++
            (kb.keyfn (if (s.desktop.current).focused = some win then s
              else { s with desktop := s.desktop.focus_current win })).2)) := by
  constructor
  · intro kbs h
    show Except.ok (scanKeys kev win kbs s) = _
    rw [scanKeys_no_match kev win kbs s h]
  · intro pre post kb hpre hm hk
    show Except.ok (scanKeys kev win (pre ++ kb :: post) s) = _
    rw [scanKeys_skip kev win pre (kb :: post) s hpre, scanKeys, if_pos ⟨hm, hk⟩]
    by_cases hfoc : (s.desktop.current).focused = some win <;> simp [hfoc]

/-- Witness for C7: the first entry ⟨3, 4⟩ does not match the event ⟨1, 2⟩,
the second does and runs an action that stops the loop, and the matching
third entry is never reached; window 5 is already focused so no focus call is
issued. -/
theorem keyPress_first_match_at :
    handleEvent
        [⟨3, 4, fun s => (s, [])⟩,
         ⟨1, 2, fun s => ({ s with running := false }, [])⟩,
         ⟨1, 2, fun s => (s, [XCall.grabPointer])⟩]
        (0, 0) (Event.keyPress ⟨1, 2⟩ 5)
        (initState (Screen.new 0 1) ⟨[⟨[5], some 5⟩], 0⟩) =
      Except.ok ({ initState (Screen.new 0 1) ⟨[⟨[5], some 5⟩], 0⟩ with running := false },
        []) := by
  have h := (keyPress_first_match (0, 0) ⟨1, 2⟩ 5
      (initState (Screen.new 0 1) ⟨[⟨[5], some 5⟩], 0⟩)).2
    [⟨3, 4, fun s => (s, [])⟩]
    [⟨1, 2, fun s => (s, [XCall.grabPointer])⟩]
    ⟨1, 2, fun s => ({ s with running := false }, [])⟩
    (by intro k hk; simp at hk; subst hk; simp) rfl rfl
  simpa using h

/-! ### C1: the grab is held exactly outside Ground -/

/-- The key dispatch scan leaves grab and mode alone when every action in the
table does. -/
theorem scanKeys_preserves_grab_mode (kev : KeyEvent) (win : Nat) :
    ∀ (kbs : List Keybind) (s : WMState), (∀ k ∈ kbs, PreservesGrabMode k) →
    (scanKeys kev win kbs s).1.grabbed = s.grabbed ∧
    (scanKeys kev win kbs s).1.mouse_mode = s.mouse_mode
| [], _, _ => ⟨rfl, rfl⟩
| kb :: rest, s, h => by
  have hkb := h kb (List.mem_cons_self kb rest)
  by_cases hm : kb.mask = kev.mask ∧ kb.key = kev.key
  · rw [scanKeys, if_pos hm]
    by_cases hfoc : (s.desktop.current).focused = some win
    · simp only [if_pos hfoc]
      exact ⟨(hkb s).1, (hkb s).2⟩
    · simp only [if_neg hfoc]
      exact ⟨(hkb _).1, (hkb _).2⟩
  · rw [scanKeys, if_neg hm]
    exact scanKeys_preserves_grab_mode kev win rest s
      (fun k hk => h k (List.mem_cons_of_mem kb hk))

/-- Fully processing one event keeps the grab-iff-not-Ground invariant. -/
theorem handleEvent_grab_inv (kbs : List Keybind) (ptr : Int × Int) (ev : Event)
    (s s1 : WMState) (t : List XCall)
    (hk : ∀ k ∈ kbs, PreservesGrabMode k)
    (h : handleEvent kbs ptr ev s = Except.ok (s1, t))
    (hs : s.grabbed = true ↔ s.mouse_mode ≠ MouseMode.ground) :
    s1.grabbed = true ↔ s1.mouse_mode ≠ MouseMode.ground := by
  cases ev with
  | mapRequest win =>
    simp only [handleEvent] at h
    cases hc : s.desktop.contains_mut win with
    | some p =>
      obtain ⟨i, j⟩ := p
      simp only [hc] at h
      by_cases hi : i = s.desktop.cur
      · rw [if_pos hi] at h
        simp only [Except.ok.injEq, Prod.mk.injEq] at h
        rw [← h.1]
        exact hs
      · rw [if_neg hi] at h
        simp only [Except.ok.injEq, Prod.mk.injEq] at h
        rw [← h.1]
        exact hs
    | none =>
      simp only [hc, Except.ok.injEq, Prod.mk.injEq] at h
      rw [← h.1]
      exact hs
  | unmapNotify win =>
    simp only [handleEvent] at h
    cases hc : s.desktop.contains_mut win with
    | some p =>
      obtain ⟨i, j⟩ := p
      simp only [hc, Except.ok.injEq, Prod.mk.injEq] at h
      rw [← h.1]
      exact hs
    | none =>
      simp only [hc, Except.ok.injEq, Prod.mk.injEq] at h
      rw [← h.1]
      exact hs
  | destroyNotify win =>
    simp only [handleEvent] at h
    cases hc : s.desktop.contains_mut win with
    | some p =>
      obtain ⟨i, j⟩ := p
      simp only [hc, Except.ok.injEq, Prod.mk.injEq] at h
      rw [← h.1]
      exact hs
    | none =>
      simp only [hc, Except.ok.injEq, Prod.mk.injEq] at h
      rw [← h.1]
      exact hs
  | enterNotify win =>
    simp only [handleEvent, Except.ok.injEq, Prod.mk.injEq] at h
    rw [← h.1]
    exact hs
  | motionNotify =>
    simp only [handleEvent] at h
    by_cases he : (s.desktop.current).windows.isEmpty
    · rw [if_pos he] at h
      simp only [Except.ok.injEq, Prod.mk.injEq] at h
      rw [← h.1]
      exact hs
    · rw [if_neg he] at h
      cases hm : s.mouse_mode with
      | ground => rw [hm] at h; simp at h
      | move =>
        rw [hm] at h
        cases hf : (s.desktop.current).focused with
        | some f =>
          rw [hf] at h
          simp only [Except.ok.injEq, Prod.mk.injEq] at h
          rw [← h.1]
          simpa [hm] using hs
        | none => rw [hf] at h; simp at h
      | resize =>
        rw [hm] at h
        cases hf : (s.desktop.current).focused with
        | some f =>
          rw [hf] at h
          simp only [Except.ok.injEq, Prod.mk.injEq] at h
          rw [← h.1]
          simpa [hm] using hs
        | none => rw [hf] at h; simp at h
  | keyPress kev win =>
    simp only [handleEvent, Except.ok.injEq] at h
    have h1 : (scanKeys kev win kbs s).1 = s1 := by rw [h]
    have hp := scanKeys_preserves_grab_mode kev win kbs s hk
    rw [← h1, hp.1, hp.2]
    exact hs
  | buttonPress but win =>
    simp only [handleEvent] at h
    by_cases he : (s.desktop.current).windows.isEmpty
    · rw [if_pos he] at h
      simp only [Except.ok.injEq, Prod.mk.injEq] at h
      rw [← h.1]
      exact hs
    · rw [if_neg he] at h
      cases hf : (s.desktop.current).focused with
      | none => rw [hf] at h; simp at h
      | some f =>
        rw [hf] at h
        simp only [Except.ok.injEq, Prod.mk.injEq] at h
        rw [← h.1]
        cases but <;> simp
  | buttonRelease but =>
    simp only [handleEvent, Except.ok.injEq, Prod.mk.injEq] at h
    rw [← h.1]
    simp

/-- The invariant holds after every fully processed prefix of an event
sequence. -/
theorem runEvents_grab_inv (kbs : List Keybind) (hk : ∀ k ∈ kbs, PreservesGrabMode k) :
    ∀ (evs : List ((Int × Int) × Event)) (s s1 : WMState),
    runEvents kbs evs s = Except.ok s1 →
    (s.grabbed = true ↔ s.mouse_mode ≠ MouseMode.ground) →
    (s1.grabbed = true ↔ s1.mouse_mode ≠ MouseMode.ground)
| [], s, s1, h, hs => by
  simp only [runEvents, Except.ok.injEq] at h
  rw [← h]
  exact hs
| (ptr, ev) :: rest, s, s1, h, hs => by
  rw [runEvents] at h
  cases hh : handleEvent kbs ptr ev s with
  | ok p =>
    obtain ⟨a, b⟩ := p
    rw [hh] at h
    exact runEvents_grab_inv kbs hk rest a s1 h
      (handleEvent_grab_inv kbs ptr ev s a b hk hh hs)
  | error e =>
    rw [hh] at h
    simp at h

/-- C1: starting from the initial state (Ground, no grab held), after every
fully processed event sequence whose keybind actions leave the grab and the
mode alone, the pointer grab is held if and only if MouseMode is not Ground:
ButtonPress on a non-empty workspace grabs and sets Move or Resize,
ButtonRelease ungrabs and grounds, and no other handler changes grab or
mode. -/
theorem grab_held_iff_not_ground (kbs : List Keybind) (evs : List ((Int × Int) × Event))
    (scr : Screen) (d : Desktop) (s : WMState)
    (hk : ∀ k ∈ kbs, PreservesGrabMode k)
    (h : runEvents kbs evs (initState scr d) = Except.ok s) :
    s.grabbed = true ↔ s.mouse_mode ≠ MouseMode.ground :=
  runEvents_grab_inv kbs hk evs (initState scr d) s h (by simp [initState])

/-- Witness for C1: the empty keybind table, a left press on the focused
window 5 followed by a release; the final state is grounded with no grab. -/
theorem grab_held_iff_not_ground_at :
    (({ desktop := ⟨[⟨[5], some 5⟩], 0⟩, screen := Screen.new 0 1,
        mouse_mode := MouseMode.ground, last_mouse_x := 1, last_mouse_y := 2,
        running := true, grabbed := false } : WMState).grabbed = true) ↔
    (({ desktop := ⟨[⟨[5], some 5⟩], 0⟩, screen := Screen.new 0 1,
        mouse_mode := MouseMode.ground, last_mouse_x := 1, last_mouse_y := 2,
        running := true, grabbed := false } : WMState).mouse_mode ≠ MouseMode.ground) :=
  grab_held_iff_not_ground []
    [((1, 2), Event.buttonPress MouseButton.leftClick 5),
     ((3, 4), Event.buttonRelease MouseButton.leftClick)]
    (Screen.new 0 1) ⟨[⟨[5], some 5⟩], 0⟩ _ (by simp) rfl

end Afwm
